import Mathlib

/-!
Verification of the NailMetrics interactive overlay and calibration engine.

The definitions below are a shallow embedding of the TypeScript source:

* `NailOverlay` (src: the unnamed overlay component): pan/zoom view
  transform, wheel zoom, the pointer/touch interaction state machine with
  drag / edge-resize / rotate / pan / pinch modes;
* `CoinOverlay` and the `App` controller (CoinOverlay.tsx): manual coin
  calibration, the implied anthropometric calibration effect, the
  `analyzeImage` detector orchestration and session reset;
* `useHandDetection`: the fallible `detect` boundary.

Machine floating-point numbers are modelled as real numbers; the mode
strings of the interaction state machine are kept as strings, as in the
source.  `String.startsWith` is modelled on the underlying character
lists (`List.isPrefixOf`), which is definitionally reducible.
-/

namespace NailMetrics

noncomputable section

/-- Oriented bounding box of a nail region in image-normalized coordinates:
the `boundingBox` field of `NailMeasurement` (useHandDetection.ts).  `x`,`y`
is the box center, `rotation` is a signed angle in radians. -/
structure BoundingBox where
  x : ℝ
  y : ℝ
  width : ℝ
  height : ℝ
  rotation : ℝ

/-- The `NailMeasurement` record (useHandDetection.ts). -/
structure Measurement where
  finger : String
  width : ℝ
  length : ℝ
  boundingBox : BoundingBox

/-- Result of `getBoundingClientRect()` on the transformed container div of
`NailOverlay`: viewport position and rendered size in screen pixels. -/
structure Rect where
  left : ℝ
  top : ℝ
  width : ℝ
  height : ℝ

/-- The pan/zoom view transform state `{scale, x, y}` of `NailOverlay`. -/
structure Transform where
  scale : ℝ
  x : ℝ
  y : ℝ

/-- Math.atan2 y x, embedded as the complex argument of `x + y*I`. -/
def atan2 (y x : ℝ) : ℝ := Complex.arg ⟨x, y⟩

/-- Model of `String.startsWith` on the underlying character lists (the
byte-position based core implementation does not reduce definitionally). -/
def strStartsWith (s pre : String) : Bool := pre.data.isPrefixOf s.data

/-- Tail of the resize branch of `handleMouseMove` / `handleTouchMove`
(NailOverlay): rotate the accumulated local center shift back into the
global frame and rebuild the measurement with the new width, height and
shifted center. -/
def finishResize (m : Measurement) (newW newH shiftLocalX shiftLocalY : ℝ) :
    Measurement :=
  let rotation := m.boundingBox.rotation
  let globalShiftX := shiftLocalX * Real.cos rotation - shiftLocalY * Real.sin rotation
  let globalShiftY := shiftLocalX * Real.sin rotation + shiftLocalY * Real.cos rotation
  { m with boundingBox :=
    { m.boundingBox with
        width := newW
        height := newH
        x := m.boundingBox.x + globalShiftX
        y := m.boundingBox.y + globalShiftY } }

/-- Per-mode object update shared verbatim by `handleMouseMove` and
`handleTouchMove` (NailOverlay): given the interaction mode string, the
gesture-start snapshot `initialM`, the container rect and the gesture-start
and current pointer positions (screen pixels), produce the replacement
measurement record. -/
def computeObjectUpdate (mode : String) (initialM : Measurement) (rect : Rect)
    (dragStart pointer : ℝ × ℝ) : Measurement :=
  let cxNorm := initialM.boundingBox.x
  let cyNorm := initialM.boundingBox.y
  let centerX := rect.left + cxNorm * rect.width
  let centerY := rect.top + cyNorm * rect.height
  let dxPx := pointer.1 - dragStart.1
  let dyPx := pointer.2 - dragStart.2
  if mode == "rotate" then
    let vecX := pointer.1 - centerX
    let vecY := pointer.2 - centerY
    let currentAngle := atan2 vecY vecX
    let startVecX := dragStart.1 - centerX
    let startVecY := dragStart.2 - centerY
    let startAngle := atan2 startVecY startVecX
    let deltaRot := currentAngle - startAngle
    { initialM with boundingBox :=
      { initialM.boundingBox with
          rotation := initialM.boundingBox.rotation + deltaRot } }
  else if mode == "drag" then
    let dx := dxPx / rect.width
    let dy := dyPx / rect.height
    { initialM with boundingBox :=
      { initialM.boundingBox with
          x := initialM.boundingBox.x + dx
          y := initialM.boundingBox.y + dy } }
  else if strStartsWith mode ("resize") then
    let dx := dxPx / rect.width
    let dy := dyPx / rect.height
    let rotation := initialM.boundingBox.rotation
    let cos := Real.cos (-rotation)
    let sin := Real.sin (-rotation)
    let localDx := dx * cos - dy * sin
    let localDy := dx * sin + dy * cos
    if mode == "resize-e" then
      finishResize initialM (max 0.01 (initialM.boundingBox.width + localDx))
        initialM.boundingBox.height (localDx / 2) 0
    else if mode == "resize-w" then
      finishResize initialM (max 0.01 (initialM.boundingBox.width - localDx))
        initialM.boundingBox.height (localDx / 2) 0
    else if mode == "resize-s" then
      finishResize initialM initialM.boundingBox.width
        (max 0.01 (initialM.boundingBox.height + localDy)) 0 (localDy / 2)
    else if mode == "resize-n" then
      finishResize initialM initialM.boundingBox.width
        (max 0.01 (initialM.boundingBox.height - localDy)) 0 (localDy / 2)
    else
      finishResize initialM initialM.boundingBox.width initialM.boundingBox.height 0 0
  else
    initialM

/-- The local-frame x delta of the resize branch: the screen delta
normalized by the container size and rotated into the box frame by the
inverse rotation (the `localDx` let of the source). -/
def resizeLocalDx (m : Measurement) (rect : Rect) (dragStart pointer : ℝ × ℝ) : ℝ :=
  ((pointer.1 - dragStart.1) / rect.width) * Real.cos (-m.boundingBox.rotation) -
    ((pointer.2 - dragStart.2) / rect.height) * Real.sin (-m.boundingBox.rotation)

/-- The local-frame y delta of the resize branch (the `localDy` let of the
source). -/
def resizeLocalDy (m : Measurement) (rect : Rect) (dragStart pointer : ℝ × ℝ) : ℝ :=
  ((pointer.1 - dragStart.1) / rect.width) * Real.sin (-m.boundingBox.rotation) +
    ((pointer.2 - dragStart.2) / rect.height) * Real.cos (-m.boundingBox.rotation)

/-- One committed object-gesture update: the mode, the rendered container
rect and the gesture-start / current pointer positions.  Each gesture
snapshots the box at its own start, so a sequence of gestures is a left
fold of `applyGesture`. -/
structure Gesture where
  mode : String
  rect : Rect
  dragStart : ℝ × ℝ
  pointer : ℝ × ℝ

/-- Apply one gesture update to a measurement (the snapshot of this gesture
is the measurement produced by the previous one). -/
def applyGesture (m : Measurement) (g : Gesture) : Measurement :=
  computeObjectUpdate g.mode m g.rect g.dragStart g.pointer

/-- Component state of `NailOverlay`: the view transform, the pan flag and
its refs, the active-box gesture state and pinch refs, together with the
measurement list the component edits through `onMeasurementsChange`. -/
structure OverlayState where
  transform : Transform
  isPanning : Bool
  panStart : ℝ × ℝ
  panStartTransform : ℝ × ℝ
  activeId : Option ℕ
  interactionMode : Option String
  dragStart : ℝ × ℝ
  initialMeasurement : Option Measurement
  pinchStartDist : ℝ
  pinchStartScale : ℝ
  measurements : List Measurement

/-- `getPinchDist`: 0 when fewer than two touch points, otherwise
`Math.hypot` of the coordinate differences of the first two touches. -/
def getPinchDist (touches : List (ℝ × ℝ)) : ℝ :=
  match touches with
  | t1 :: t2 :: _ => Real.sqrt ((t1.1 - t2.1) ^ 2 + (t1.2 - t2.2) ^ 2)
  | _ => 0

/-- `handleWheel` (NailOverlay): multiply the scale by
`1 + (-deltaY * 0.001)` and clamp the result to `[0.5, 5]`. -/
def handleWheel (s : OverlayState) (deltaY : ℝ) : OverlayState :=
  let scaleAmount := -deltaY * 0.001
  let newScale := min (max 0.5 (s.transform.scale * (1 + scaleAmount))) 5
  { s with transform := { s.transform with scale := newScale } }

/-- `handleTouchStart` (NailOverlay): two touch points snapshot the pinch
distance and current scale and cancel any other interaction; one touch
starts a pan on the background (`index = none`) or targets a box. -/
def handleTouchStart (s : OverlayState) (touches : List (ℝ × ℝ))
    (index : Option ℕ) (mode : String) : OverlayState :=
  if touches.length = 2 then
    { s with
        pinchStartDist := getPinchDist touches
        pinchStartScale := s.transform.scale
        isPanning := false
        activeId := none
        interactionMode := none }
  else
    match touches with
    | [] => s
    | touch :: _ =>
      match index with
      | none =>
        { s with
            isPanning := true
            panStart := touch
            panStartTransform := (s.transform.x, s.transform.y) }
      | some i =>
        { s with
            activeId := some i
            interactionMode := some mode
            dragStart := touch
            initialMeasurement := s.measurements[i]? }

/-- `handleTouchMove` (NailOverlay): two touches drive the pinch zoom
(no-op unless both the stored start distance and the current distance are
positive); otherwise the first touch drives a pan when panning, or an
object update when a box gesture is active (this is the path that commits
`computeObjectUpdate` through `onMeasurementsChange`). -/
def handleTouchMove (s : OverlayState) (rect : Rect) (touches : List (ℝ × ℝ)) :
    OverlayState :=
  if touches.length = 2 then
    let dist := getPinchDist touches
    if 0 < s.pinchStartDist ∧ 0 < dist then
      let newScale := min (max 0.5 (s.pinchStartScale * (dist / s.pinchStartDist))) 5
      { s with transform := { s.transform with scale := newScale } }
    else s
  else
    match touches with
    | [] => s
    | touch :: _ =>
      if s.isPanning then
        { s with transform :=
          { s.transform with
              x := s.panStartTransform.1 + (touch.1 - s.panStart.1)
              y := s.panStartTransform.2 + (touch.2 - s.panStart.2) } }
      else
        match s.activeId, s.interactionMode, s.initialMeasurement with
        | some i, some mode, some initialM =>
          if mode == "rotate" ∨ mode == "drag" ∨ strStartsWith mode ("resize") then
            { s with measurements :=
                s.measurements.set i (computeObjectUpdate mode initialM rect s.dragStart touch) }
          else s
        | _, _, _ => s

/-- Component state of the `App` controller (CoinOverlay.tsx), restricted
to the fields its calibration and detection logic reads or writes. -/
structure AppState where
  measurements : List Measurement
  imageWidth : ℝ
  imageHeight : ℝ
  pixelsPerMM : Option ℝ
  showCoinTool : Bool
  isAnalyzing : Bool

/-- Reference coin diameter constant of CoinOverlay.tsx (10 NTD coin). -/
def COIN_DIAMETER_MM : ℝ := 26.0

/-- Assumed average thumb width constant of the implied calibration (App). -/
def ASSUMED_THUMB_WIDTH_MM : ℝ := 15.0

/-- The implied (anthropometric) calibration effect of App: when the coin
tool is not shown, no pixels-per-mm value is set, the measurement list is
nonempty and the native image width is known, derive pixels-per-mm from the
width of the box labeled Thumb, assuming a 15.0 mm thumb. -/
def impliedCalibrationEffect (s : AppState) : AppState :=
  if s.showCoinTool then s
  else if s.pixelsPerMM.isSome then s
  else if s.measurements.length = 0 ∨ s.imageWidth = 0 then s
  else
    match s.measurements.find? (fun m => m.finger == "Thumb") with
    | none => s
    | some thumb =>
      let thumbWidthPx := thumb.width * s.imageWidth
      { s with pixelsPerMM := some (thumbWidthPx / ASSUMED_THUMB_WIDTH_MM) }

/-- The `onCalibrationChange` prop body in App: rescale the display-space
pixels-per-mm by native width over rendered container width when the
container is mounted and the native width is known. -/
def onCoinCalibrationChange (s : AppState) (pxPerMMScreen renderWidth : ℝ)
    (hasContainer : Bool) : AppState :=
  if hasContainer = true ∧ 0 < s.imageWidth then
    let scaleFactor := s.imageWidth / renderWidth
    { s with pixelsPerMM := some (pxPerMMScreen * scaleFactor) }
  else
    { s with pixelsPerMM := some pxPerMMScreen }

/-- The CoinOverlay calibration effect: when the coin tool is visible,
report `diameter / 26.0` (display-space pixels-per-mm in the unscaled
canvas frame) to App's `onCalibrationChange`. -/
def coinCalibrationEffect (s : AppState) (diameter renderWidth : ℝ)
    (hasContainer : Bool) : AppState :=
  if s.showCoinTool then
    onCoinCalibrationChange s (diameter / COIN_DIAMETER_MM) renderWidth hasContainer
  else s

/-- `setMeasurements` as passed to NailOverlay through
`onMeasurementsChange`: a box geometry edit replaces the measurement list
and touches nothing else in the controller state. -/
def setMeasurementsApp (s : AppState) (ms : List Measurement) : AppState :=
  { s with measurements := ms }

/-- The synchronous prefix of `analyzeImage` (App): mark the session as
analyzing, clear any pixels-per-mm value and hide the coin tool. -/
def analyzeImageStart (s : AppState) : AppState :=
  { s with isAnalyzing := true, pixelsPerMM := none, showCoinTool := false }

/-- The `img.onload` continuation of `analyzeImage`: record the native
image size, then commit the detector result; a rejected `detect` call is
caught (only logged) and the `finally` clause clears the analyzing flag. -/
def analyzeImageLoad (s : AppState) (w h : ℝ)
    (result : Except String (List Measurement)) : AppState :=
  let s1 := { s with imageWidth := w, imageHeight := h }
  match result with
  | Except.ok ms => { s1 with measurements := ms, isAnalyzing := false }
  | Except.error _ => { s1 with isAnalyzing := false }

/-- `detect` (useHandDetection): throws when the model is not loaded,
otherwise forwards the landmarker outcome (measurements on success, a
propagated rejection on failure) to the caller. -/
def detectCall (modelLoaded : Bool) (raw : Except String (List Measurement)) :
    Except String (List Measurement) :=
  if modelLoaded then raw else Except.error ("Model not loaded")

/-- The `reset` handler of App: drop all measurements, clear the
pixels-per-mm value and hide the coin tool. -/
def resetApp (s : AppState) : AppState :=
  { s with measurements := [], pixelsPerMM := none, showCoinTool := false }


/-! Helper lemmas about the object update. -/

/-- A gesture update never lowers a width or height that already satisfies
the 0.01 floor. -/
lemma applyGesture_bounds (m : Measurement) (g : Gesture)
    (hw : (0.01:ℝ) ≤ m.boundingBox.width) (hh : (0.01:ℝ) ≤ m.boundingBox.height) :
    0.01 ≤ (applyGesture m g).boundingBox.width ∧
      0.01 ≤ (applyGesture m g).boundingBox.height := by
  simp only [applyGesture, computeObjectUpdate, finishResize]
  split_ifs <;>
    exact ⟨by first | exact hw | exact le_max_left _ _,
           by first | exact hh | exact le_max_left _ _⟩

/-- Unfolding lemma for the rotate branch: the new rotation is the snapshot
rotation plus the difference of the pointer angles around the box's
screen-space center. -/
lemma rotate_update_rotation (m : Measurement) (rect : Rect) (ds p : ℝ × ℝ) :
    (computeObjectUpdate ("rotate") m rect ds p).boundingBox.rotation =
      m.boundingBox.rotation +
        (atan2 (p.2 - (rect.top + m.boundingBox.y * rect.height))
               (p.1 - (rect.left + m.boundingBox.x * rect.width)) -
         atan2 (ds.2 - (rect.top + m.boundingBox.y * rect.height))
               (ds.1 - (rect.left + m.boundingBox.x * rect.width))) := rfl

/-- A rotate update leaves the box center x untouched. -/
lemma rotate_update_x (m : Measurement) (rect : Rect) (ds p : ℝ × ℝ) :
    (computeObjectUpdate ("rotate") m rect ds p).boundingBox.x = m.boundingBox.x := rfl

/-- A rotate update leaves the box center y untouched. -/
lemma rotate_update_y (m : Measurement) (rect : Rect) (ds p : ℝ × ℝ) :
    (computeObjectUpdate ("rotate") m rect ds p).boundingBox.y = m.boundingBox.y := rfl

/-! Claim theorems. -/

/-- C1: for every box already satisfying the ε = 0.01 floor, every gesture
update (in particular every resize-e/w/n/s update, for any box rotation and
any screen-space pointer delta) yields width ≥ 0.01 and height ≥ 0.01 —
an edit that would drive a dimension below 0.01 is clamped by the
`max 0.01` in the resize branches — and the floor persists after any
sequence of gesture updates. -/
theorem resize_clamps_width_height_floor (m : Measurement)
    (hw : (0.01:ℝ) ≤ m.boundingBox.width) (hh : (0.01:ℝ) ≤ m.boundingBox.height) :
    (∀ g : Gesture, 0.01 ≤ (applyGesture m g).boundingBox.width ∧
        0.01 ≤ (applyGesture m g).boundingBox.height) ∧
    (∀ gs : List Gesture, 0.01 ≤ (gs.foldl applyGesture m).boundingBox.width ∧
        0.01 ≤ (gs.foldl applyGesture m).boundingBox.height) := by
  refine ⟨fun g => applyGesture_bounds m g hw hh, fun gs => ?_⟩
  induction gs generalizing m with
  | nil => exact ⟨hw, hh⟩
  | cons g gs ih =>
    have h := applyGesture_bounds m g hw hh
    simpa using ih (applyGesture m g) h.1 h.2

/-- Witness for C1: a concrete resize-e gesture that would drive the width
to -1.5 still yields width ≥ 0.01. -/
theorem resize_clamps_width_height_floor_witness :
    (0.01:ℝ) ≤ (0.5:ℝ) ∧
    (0.01:ℝ) ≤ (applyGesture ⟨("Thumb"), 0.5, 0.5, ⟨0.5, 0.5, 0.5, 0.5, 0⟩⟩
        ⟨("resize-e"), ⟨0, 0, 1, 1⟩, (0, 0), (-2, 0)⟩).boundingBox.width := by
  constructor
  · norm_num
  · exact ((resize_clamps_width_height_floor
      ⟨("Thumb"), 0.5, 0.5, ⟨0.5, 0.5, 0.5, 0.5, 0⟩⟩
      (show (0.01:ℝ) ≤ 0.5 by norm_num) (show (0.01:ℝ) ≤ 0.5 by norm_num)).1 _).1

/-- C9: a rotate update sets the rotation to the snapshot rotation plus the
difference between the current and gesture-origin pointer angles around the
box's screen-space center (containerTopLeft + normalizedCenter × size);
rotation accumulates relatively, so rotating by some gesture and then by the
reverse gesture restores the original rotation exactly, hence within the
1e-9 tolerance. -/
theorem rotate_relative_accumulation (m : Measurement) (rect : Rect) (ds p : ℝ × ℝ) :
    (computeObjectUpdate ("rotate") m rect ds p).boundingBox.rotation =
      m.boundingBox.rotation +
        (atan2 (p.2 - (rect.top + m.boundingBox.y * rect.height))
               (p.1 - (rect.left + m.boundingBox.x * rect.width)) -
         atan2 (ds.2 - (rect.top + m.boundingBox.y * rect.height))
               (ds.1 - (rect.left + m.boundingBox.x * rect.width))) ∧
    (computeObjectUpdate ("rotate") (computeObjectUpdate ("rotate") m rect ds p)
        rect p ds).boundingBox.rotation = m.boundingBox.rotation ∧
    |(computeObjectUpdate ("rotate") (computeObjectUpdate ("rotate") m rect ds p)
        rect p ds).boundingBox.rotation - m.boundingBox.rotation| ≤ 1e-9 := by
  have h : (computeObjectUpdate ("rotate") (computeObjectUpdate ("rotate") m rect ds p)
      rect p ds).boundingBox.rotation = m.boundingBox.rotation := by
    rw [rotate_update_rotation, rotate_update_rotation, rotate_update_x, rotate_update_y]
    ring
  refine ⟨rotate_update_rotation m rect ds p, h, ?_⟩
  rw [h]
  simp
  norm_num


/-- Projection lemmas for the resize-e update. -/
lemma resize_e_width (m : Measurement) (rect : Rect) (ds p : ℝ × ℝ) :
    (computeObjectUpdate ("resize-e") m rect ds p).boundingBox.width =
      max 0.01 (m.boundingBox.width + resizeLocalDx m rect ds p) := rfl

lemma resize_e_height (m : Measurement) (rect : Rect) (ds p : ℝ × ℝ) :
    (computeObjectUpdate ("resize-e") m rect ds p).boundingBox.height =
      m.boundingBox.height := rfl

lemma resize_e_x (m : Measurement) (rect : Rect) (ds p : ℝ × ℝ) :
    (computeObjectUpdate ("resize-e") m rect ds p).boundingBox.x =
      m.boundingBox.x + (resizeLocalDx m rect ds p / 2 * Real.cos m.boundingBox.rotation -
        0 * Real.sin m.boundingBox.rotation) := rfl

lemma resize_e_y (m : Measurement) (rect : Rect) (ds p : ℝ × ℝ) :
    (computeObjectUpdate ("resize-e") m rect ds p).boundingBox.y =
      m.boundingBox.y + (resizeLocalDx m rect ds p / 2 * Real.sin m.boundingBox.rotation +
        0 * Real.cos m.boundingBox.rotation) := rfl

lemma resize_e_rotation (m : Measurement) (rect : Rect) (ds p : ℝ × ℝ) :
    (computeObjectUpdate ("resize-e") m rect ds p).boundingBox.rotation =
      m.boundingBox.rotation := rfl

/-- Projection lemmas for the resize-w update. -/
lemma resize_w_width (m : Measurement) (rect : Rect) (ds p : ℝ × ℝ) :
    (computeObjectUpdate ("resize-w") m rect ds p).boundingBox.width =
      max 0.01 (m.boundingBox.width - resizeLocalDx m rect ds p) := rfl

lemma resize_w_x (m : Measurement) (rect : Rect) (ds p : ℝ × ℝ) :
    (computeObjectUpdate ("resize-w") m rect ds p).boundingBox.x =
      m.boundingBox.x + (resizeLocalDx m rect ds p / 2 * Real.cos m.boundingBox.rotation -
        0 * Real.sin m.boundingBox.rotation) := rfl

lemma resize_w_y (m : Measurement) (rect : Rect) (ds p : ℝ × ℝ) :
    (computeObjectUpdate ("resize-w") m rect ds p).boundingBox.y =
      m.boundingBox.y + (resizeLocalDx m rect ds p / 2 * Real.sin m.boundingBox.rotation +
        0 * Real.cos m.boundingBox.rotation) := rfl

/-- The local x delta only depends on the box through its rotation. -/
lemma resizeLocalDx_congr (m1 m : Measurement) (rect : Rect) (ds p : ℝ × ℝ)
    (h : m1.boundingBox.rotation = m.boundingBox.rotation) :
    resizeLocalDx m1 rect ds p = resizeLocalDx m rect ds p := by
  unfold resizeLocalDx
  rw [h]

/-- C2 counterexample: for the unrotated baseline box with center x = 0.5
and width 0.2, resizing East by screen delta +0.1 (in a unit container) and
then West by the same delta restores the width but moves the center x to
0.6 ≠ 0.5, so the claim that the center x is unchanged fails. -/
theorem resize_east_west_counterexample :
    (computeObjectUpdate ("resize-w")
        (computeObjectUpdate ("resize-e")
          ⟨("Index"), 0.2, 0.2, ⟨0.5, 0.5, 0.2, 0.2, 0⟩⟩ ⟨0, 0, 1, 1⟩ (0, 0) (0.1, 0))
        ⟨0, 0, 1, 1⟩ (0, 0) (0.1, 0)).boundingBox.x ≠ (0.5 : ℝ) := by
  have hd : resizeLocalDx (⟨("Index"), 0.2, 0.2, ⟨0.5, 0.5, 0.2, 0.2, 0⟩⟩ : Measurement)
      ⟨0, 0, 1, 1⟩ (0, 0) (0.1, 0) = 0.1 := by
    unfold resizeLocalDx
    norm_num [Real.cos_zero, Real.sin_zero]
  rw [resize_w_x, resizeLocalDx_congr _ _ _ _ _ (resize_e_rotation _ _ _ _),
    resize_e_x, resize_e_rotation, hd]
  norm_num [Real.cos_zero, Real.sin_zero]

/-- C2 (amended): resizing East by a screen delta and then West by the same
delta from the resulting box leaves the width unchanged (when neither step
clamps at 0.01), but does not keep the center fixed: the center translates
by the local x delta rotated back into the global frame, i.e. center x
moves by `localDx * cos rotation` and center y by `localDx * sin rotation`
(the whole box is translated; the center is unchanged only when that local
delta is zero). -/
theorem resize_east_then_west_translates (m : Measurement) (rect : Rect) (ds p : ℝ × ℝ)
    (h1 : (0.01:ℝ) ≤ m.boundingBox.width + resizeLocalDx m rect ds p)
    (h2 : (0.01:ℝ) ≤ m.boundingBox.width) :
    (computeObjectUpdate ("resize-w") (computeObjectUpdate ("resize-e") m rect ds p)
        rect ds p).boundingBox.width = m.boundingBox.width ∧
    (computeObjectUpdate ("resize-w") (computeObjectUpdate ("resize-e") m rect ds p)
        rect ds p).boundingBox.x =
      m.boundingBox.x + resizeLocalDx m rect ds p * Real.cos m.boundingBox.rotation ∧
    (computeObjectUpdate ("resize-w") (computeObjectUpdate ("resize-e") m rect ds p)
        rect ds p).boundingBox.y =
      m.boundingBox.y + resizeLocalDx m rect ds p * Real.sin m.boundingBox.rotation := by
  have hdx := resizeLocalDx_congr _ m rect ds p (resize_e_rotation m rect ds p)
  refine ⟨?_, ?_, ?_⟩
  · rw [resize_w_width, hdx, resize_e_width, max_eq_right h1, add_sub_cancel_right]
    exact max_eq_right h2
  · rw [resize_w_x, hdx, resize_e_x, resize_e_rotation]
    ring
  · rw [resize_w_y, hdx, resize_e_y, resize_e_rotation]
    ring

/-- Witness for the amended C2: at the concrete counterexample inputs the
width returns to 0.2 while the center x lands at 0.5 + 0.1 * cos 0. -/
theorem resize_east_then_west_translates_witness :
    (computeObjectUpdate ("resize-w")
        (computeObjectUpdate ("resize-e")
          ⟨("Index"), 0.2, 0.2, ⟨0.5, 0.5, 0.2, 0.2, 0⟩⟩ ⟨0, 0, 1, 1⟩ (0, 0) (0.1, 0))
        ⟨0, 0, 1, 1⟩ (0, 0) (0.1, 0)).boundingBox.width =
      (⟨("Index"), 0.2, 0.2, ⟨0.5, 0.5, 0.2, 0.2, 0⟩⟩ : Measurement).boundingBox.width := by
  refine (resize_east_then_west_translates
    ⟨("Index"), 0.2, 0.2, ⟨0.5, 0.5, 0.2, 0.2, 0⟩⟩ ⟨0, 0, 1, 1⟩ (0, 0) (0.1, 0) ?_ ?_).1
  · show (0.01:ℝ) ≤ 0.2 + resizeLocalDx _ _ _ _
    unfold resizeLocalDx
    norm_num [Real.cos_zero, Real.sin_zero]
  · show (0.01:ℝ) ≤ 0.2
    norm_num


/-- Two-touch moves reduce to the pinch branch. -/
lemma handleTouchMove_pinch (s : OverlayState) (rect : Rect) (t1 t2 : ℝ × ℝ) :
    handleTouchMove s rect [t1, t2] =
      if 0 < s.pinchStartDist ∧ 0 < getPinchDist [t1, t2] then
        { s with transform := { s.transform with scale := min (max 0.5 (s.pinchStartScale * (getPinchDist [t1, t2] / s.pinchStartDist))) 5 } }
      else s := rfl

/-- A state with no pan and no active box in progress never edits the
measurement list on a touch move. -/
lemma handleTouchMove_measurements_of_idle (s : OverlayState) (rect : Rect)
    (touches : List (ℝ × ℝ)) (hp : s.isPanning = false) (ha : s.activeId = none) :
    (handleTouchMove s rect touches).measurements = s.measurements := by
  obtain ⟨tr, ip, ps, pst, ai, im, ds, im0, pd, psc, ms⟩ := s
  simp only at hp ha
  subst hp ha
  unfold handleTouchMove
  dsimp only
  split_ifs <;> first | rfl | (cases touches <;> rfl)

/-- C3: every wheel zoom lands the scale in [0.5, 5]; a two-touch move with
a positive stored start distance and positive current distance sets the
scale to `clamp(startScale * dist / startDist, 0.5, 5)`, a two-touch move
whose start or current distance is not positive is a no-op, and in either
case a scale already inside [0.5, 5] stays inside. -/
theorem zoom_scale_clamped :
    (∀ (s : OverlayState) (deltaY : ℝ),
        0.5 ≤ (handleWheel s deltaY).transform.scale ∧
          (handleWheel s deltaY).transform.scale ≤ 5) ∧
    (∀ (s : OverlayState) (rect : Rect) (t1 t2 : ℝ × ℝ),
        (¬(0 < s.pinchStartDist ∧ 0 < getPinchDist [t1, t2]) →
          handleTouchMove s rect [t1, t2] = s) ∧
        (0 < s.pinchStartDist ∧ 0 < getPinchDist [t1, t2] →
          (handleTouchMove s rect [t1, t2]).transform.scale =
            min (max 0.5 (s.pinchStartScale * (getPinchDist [t1, t2] / s.pinchStartDist))) 5) ∧
        (0.5 ≤ s.transform.scale → s.transform.scale ≤ 5 →
          0.5 ≤ (handleTouchMove s rect [t1, t2]).transform.scale ∧
            (handleTouchMove s rect [t1, t2]).transform.scale ≤ 5)) := by
  refine ⟨fun s d => ⟨le_min (le_max_left _ _) (by norm_num), min_le_right _ _⟩,
    fun s rect t1 t2 => ?_⟩
  rw [handleTouchMove_pinch]
  by_cases h : 0 < s.pinchStartDist ∧ 0 < getPinchDist [t1, t2]
  · rw [if_pos h]
    exact ⟨fun hc => absurd h hc, fun _ => rfl,
      fun h05 h5 => ⟨le_min (le_max_left _ _) (by norm_num), min_le_right _ _⟩⟩
  · rw [if_neg h]
    exact ⟨fun _ => rfl, fun hc => absurd hc h, fun h05 h5 => ⟨h05, h5⟩⟩

/-- Witness for C3: a pinch move from a state whose stored start distance
is 0 is a no-op, so the scale 1 stays in range. -/
theorem zoom_scale_clamped_witness :
    (0.5:ℝ) ≤ (handleTouchMove
        ⟨⟨1, 0, 0⟩, false, (0, 0), (0, 0), none, none, (0, 0), none, 0, 1, []⟩
        ⟨0, 0, 1, 1⟩ [(0, 0), (3, 4)]).transform.scale ∧
    (handleTouchMove
        ⟨⟨1, 0, 0⟩, false, (0, 0), (0, 0), none, none, (0, 0), none, 0, 1, []⟩
        ⟨0, 0, 1, 1⟩ [(0, 0), (3, 4)]).transform.scale ≤ 5 := by
  exact (zoom_scale_clamped.2
    ⟨⟨1, 0, 0⟩, false, (0, 0), (0, 0), none, none, (0, 0), none, 0, 1, []⟩
    ⟨0, 0, 1, 1⟩ (0, 0) (3, 4)).2.2 (by norm_num) (by norm_num)

/-- C8: when a second touch point appears, `handleTouchStart`
unconditionally cancels any single-pointer gesture (pan flag cleared,
active box and mode cleared), snapshots the current scale and the
inter-touch distance for the pinch, leaves the measurement list untouched,
and afterwards no touch move can edit the measurement list until a new
gesture starts. -/
theorem second_touch_cancels_gesture (s : OverlayState) (touches : List (ℝ × ℝ))
    (index : Option ℕ) (mode : String) (h2 : touches.length = 2) :
    (handleTouchStart s touches index mode).isPanning = false ∧
    (handleTouchStart s touches index mode).activeId = none ∧
    (handleTouchStart s touches index mode).interactionMode = none ∧
    (handleTouchStart s touches index mode).pinchStartScale = s.transform.scale ∧
    (handleTouchStart s touches index mode).pinchStartDist = getPinchDist touches ∧
    (handleTouchStart s touches index mode).measurements = s.measurements ∧
    ∀ (rect : Rect) (touches2 : List (ℝ × ℝ)),
      (handleTouchMove (handleTouchStart s touches index mode) rect touches2).measurements
        = s.measurements := by
  have hs : handleTouchStart s touches index mode =
      { s with pinchStartDist := getPinchDist touches, pinchStartScale := s.transform.scale,
               isPanning := false, activeId := none, interactionMode := none } := by
    unfold handleTouchStart
    rw [if_pos h2]
  rw [hs]
  exact ⟨rfl, rfl, rfl, rfl, rfl, rfl,
    fun rect touches2 => handleTouchMove_measurements_of_idle _ rect touches2 rfl rfl⟩

/-- Witness for C8: a second touch landing during an active drag clears the
active box index. -/
theorem second_touch_cancels_gesture_witness :
    (handleTouchStart
        ⟨⟨1, 0, 0⟩, false, (0, 0), (0, 0), some 0, some ("drag"), (0, 0),
          some ⟨("Thumb"), 0.5, 0.5, ⟨0.5, 0.5, 0.5, 0.5, 0⟩⟩, 0, 1,
          [⟨("Thumb"), 0.5, 0.5, ⟨0.5, 0.5, 0.5, 0.5, 0⟩⟩]⟩
        [(0, 0), (3, 4)] (some 0) ("drag")).activeId = none := by
  exact (second_touch_cancels_gesture _ [(0, 0), (3, 4)] (some 0) ("drag") rfl).2.1


/-- Once any pixels-per-mm value is set, the implied calibration effect is
the identity (its second guard returns early). -/
lemma impliedCalibrationEffect_of_some (s : AppState)
    (h : s.pixelsPerMM.isSome = true) : impliedCalibrationEffect s = s := by
  unfold impliedCalibrationEffect
  split_ifs <;> rfl

/-- C4: with the coin tool inactive, no pixels-per-mm value set, a known
native image width and a box labeled Thumb present, the implied calibration
sets pixels-per-mm to thumbWidth × imageNativeWidth / 15.0. -/
theorem implied_calibration_formula (s : AppState) (thumb : Measurement)
    (hcoin : s.showCoinTool = false) (hppm : s.pixelsPerMM = none)
    (hw : s.imageWidth ≠ 0)
    (hfind : s.measurements.find? (fun m => m.finger == "Thumb") = some thumb) :
    (impliedCalibrationEffect s).pixelsPerMM =
      some (thumb.width * s.imageWidth / ASSUMED_THUMB_WIDTH_MM) := by
  have hne : s.measurements.length ≠ 0 := by
    intro hlen
    rw [List.length_eq_zero] at hlen
    rw [hlen] at hfind
    simp [List.find?] at hfind
  unfold impliedCalibrationEffect
  simp [hcoin, hppm, hfind, hne, hw]

/-- Witness for C4: native width 4000 and thumb width 0.05 yield
pixels-per-mm 0.05 × 4000 / 15 = 40 / 3 (displayed as 13.33). -/
theorem implied_calibration_formula_witness :
    (impliedCalibrationEffect
        ⟨[⟨("Thumb"), 0.05, 0.06, ⟨0.5, 0.5, 0.05, 0.06, 0⟩⟩],
          4000, 3000, none, false, false⟩).pixelsPerMM = some ((40 : ℝ) / 3) := by
  have h := implied_calibration_formula
      ⟨[⟨("Thumb"), 0.05, 0.06, ⟨0.5, 0.5, 0.05, 0.06, 0⟩⟩], 4000, 3000, none, false, false⟩
      ⟨("Thumb"), 0.05, 0.06, ⟨0.5, 0.5, 0.05, 0.06, 0⟩⟩
      rfl rfl (by norm_num) rfl
  rw [h]
  norm_num [ASSUMED_THUMB_WIDTH_MM]

/-- C5: with the coin tool visible, a mounted container and a known native
width, manual calibration stores (diameter / 26.0) × (nativeWidth /
renderedWidth): the display-space pixels-per-mm rescaled to native image
space. -/
theorem manual_calibration_formula (s : AppState) (diameter renderWidth : ℝ)
    (hvis : s.showCoinTool = true) (hw : 0 < s.imageWidth) :
    (coinCalibrationEffect s diameter renderWidth true).pixelsPerMM =
      some (diameter / COIN_DIAMETER_MM * (s.imageWidth / renderWidth)) := by
  unfold coinCalibrationEffect onCoinCalibrationChange
  simp [hvis, hw]

/-- Witness for C5: a 100 px disk in a 500 px container for a 4000 px
native image yields 100/26 × 4000/500 = 400/13 native pixels-per-mm
(displayed as 3.846 × 8 = 30.77). -/
theorem manual_calibration_formula_witness :
    (coinCalibrationEffect ⟨[], 4000, 3000, none, true, false⟩
        100 500 true).pixelsPerMM = some ((400 : ℝ) / 13) := by
  have h := manual_calibration_formula ⟨[], 4000, 3000, none, true, false⟩
      100 500 rfl (by norm_num)
  rw [h]
  norm_num [COIN_DIAMETER_MM]

/-- C6: manual calibration always stores a value, and once any value is
stored, a box geometry edit (replacing the measurement list with anything)
followed by the implied calibration effect leaves pixels-per-mm unchanged:
the implied estimator never overwrites it. -/
theorem manual_calibration_sticky :
    (∀ (s : AppState) (pxScreen renderWidth : ℝ) (hasContainer : Bool),
        ((onCoinCalibrationChange s pxScreen renderWidth hasContainer).pixelsPerMM).isSome
          = true) ∧
    (∀ (s : AppState) (ms : List Measurement) (v : ℝ), s.pixelsPerMM = some v →
        (impliedCalibrationEffect (setMeasurementsApp s ms)).pixelsPerMM = some v) := by
  constructor
  · intro s px renderW hc
    unfold onCoinCalibrationChange
    split_ifs <;> rfl
  · intro s ms v hv
    rw [impliedCalibrationEffect_of_some (setMeasurementsApp s ms)
      (by rw [show (setMeasurementsApp s ms).pixelsPerMM = s.pixelsPerMM from rfl, hv]; rfl)]
    rw [show (setMeasurementsApp s ms).pixelsPerMM = s.pixelsPerMM from rfl, hv]

/-- Witness for C6: with pixels-per-mm already at 5, clearing all boxes and
re-running the implied estimator keeps the value 5. -/
theorem manual_calibration_sticky_witness :
    (impliedCalibrationEffect
        (setMeasurementsApp ⟨[], 4000, 3000, some 5, true, false⟩ [])).pixelsPerMM
      = some (5 : ℝ) := by
  exact manual_calibration_sticky.2 ⟨[], 4000, 3000, some 5, true, false⟩ [] 5 rfl

/-- C7 counterexample: when the detector call fails during a re-analysis,
the previously populated measurement list is not cleared — the presented
list is not empty, contradicting the claim that an empty measurement list
is presented. -/
theorem detection_failure_counterexample :
    (analyzeImageLoad (analyzeImageStart
        ⟨[⟨("Thumb"), 0.05, 0.06, ⟨0.5, 0.5, 0.05, 0.06, 0⟩⟩],
          4000, 3000, some 30, false, false⟩)
        4000 3000 (Except.error ("detector failed"))).measurements
      ≠ ([] : List Measurement) := by
  simp only [analyzeImageLoad, analyzeImageStart]
  exact List.cons_ne_nil _ _

/-- C7 (amended): a rejected detector call propagates out of `detect`, is
caught by the controller (which only logs it — no retry, no crash, no error
state), the analyzing flag is cleared, and the measurement list is left
exactly as it was before the call, hence empty only when it was already
empty (as on the first analysis of a session). -/
theorem detection_failure_leaves_state (s : AppState) (w h : ℝ) (msg : String) :
    detectCall true (Except.error msg) = Except.error msg ∧
    (analyzeImageLoad (analyzeImageStart s) w h (Except.error msg)).measurements
      = s.measurements ∧
    (analyzeImageLoad (analyzeImageStart s) w h (Except.error msg)).isAnalyzing = false ∧
    (analyzeImageLoad (analyzeImageStart s) w h (Except.error msg)).pixelsPerMM = none ∧
    (analyzeImageLoad (analyzeImageStart s) w h (Except.error msg)).showCoinTool = false :=
  ⟨rfl, rfl, rfl, rfl, rfl⟩

/-- C10: the implied estimator never writes over a defined pixels-per-mm
value — whichever producer set it, the effect is the identity, in
particular after any box geometry edit — and the estimator becomes live
again only through `analyzeImage` on a new image or a session reset, both
of which set pixels-per-mm back to undefined. -/
theorem calibration_write_once :
    (∀ (s : AppState) (v : ℝ), s.pixelsPerMM = some v → impliedCalibrationEffect s = s) ∧
    (∀ (s : AppState) (ms : List Measurement) (v : ℝ), s.pixelsPerMM = some v →
        (impliedCalibrationEffect (setMeasurementsApp s ms)).pixelsPerMM = some v) ∧
    (∀ s : AppState, (analyzeImageStart s).pixelsPerMM = none) ∧
    (∀ s : AppState, (resetApp s).pixelsPerMM = none) := by
  refine ⟨fun s v hv => impliedCalibrationEffect_of_some s (by rw [hv]; rfl),
    fun s ms v hv => ?_, fun s => rfl, fun s => rfl⟩
  rw [impliedCalibrationEffect_of_some (setMeasurementsApp s ms)
    (by rw [show (setMeasurementsApp s ms).pixelsPerMM = s.pixelsPerMM from rfl, hv]; rfl)]
  rw [show (setMeasurementsApp s ms).pixelsPerMM = s.pixelsPerMM from rfl, hv]

/-- Witness for C10: a state holding pixels-per-mm 7 passes through the
implied calibration effect unchanged. -/
theorem calibration_write_once_witness :
    impliedCalibrationEffect ⟨[], 4000, 3000, some 7, false, false⟩ =
      ⟨[], 4000, 3000, some 7, false, false⟩ := by
  exact calibration_write_once.1 ⟨[], 4000, 3000, some 7, false, false⟩ 7 rfl

end

end NailMetrics
